import Mathlib

/-!
Verification of the graph-builder service's core against its specification.

The Python sources are shallowly embedded: pandas `DataFrame`s become the
`DataFrame` structure below (ordered column names plus row-major cell lists),
Python scalar cell values become `PyValue`, raised exceptions become
`Except PyErr`, and wall-clock times become explicit `Int` parameters
threaded through the session-manager operations.  Each definition mirrors one
Python function of the repository (named in its doc comment); behaviour of
library calls the repository makes (pandas joins, `hashlib`, `dict`
assignment, Python `sorted`) is embedded at the call sites with the library's
documented semantics.
-/

namespace GraphBuilder

/-- A Python scalar value as it occurs in the service's tables: the ingested
CSV/JSON cells are ints and strings; `nan` stands for pandas' missing-value
float produced by unmatched join rows (and is the placeholder an absent
column lookup returns, a case no embedded code path reaches). -/
inductive PyValue where
  | int (n : Int)
  | str (s : String)
  | nan
deriving DecidableEq, Repr

/-- Python `repr` of a scalar, as it appears when a list of `dict.items()`
tuples is interpolated into an f-string (`repr(1) = "1"`,
`repr('a') = "'a'"`; the service's values contain no quotes or escapes, so
plain quoting is exact). -/
def pyRepr : PyValue → String
  | .int n => toString n
  | .str s => "'" ++ s ++ "'"
  | .nan => "nan"

/-- Python `repr` of a list of strings, e.g. `['id', 'city']`, as an
f-string renders `{props}` in the resolver's error message. -/
def pyReprStrList (l : List String) : String :=
  "[" ++ String.intercalate ", " (l.map (fun s => "'" ++ s ++ "'")) ++ "]"

/-- Python `repr` of a list of `(key, value)` tuples, e.g.
`[('age', 30), ('id', 1)]`, as an f-string renders `{sorted(props.items())}`. -/
def pyReprPairs (l : List (String × PyValue)) : String :=
  "[" ++ String.intercalate ", "
    (l.map (fun p => "('" ++ p.1 ++ "', " ++ pyRepr p.2 ++ ")")) ++ "]"

/-- A pandas `DataFrame` as the service uses it: ordered column names and
row-major cells (each row aligned with `cols`). -/
structure DataFrame where
  cols : List String
  rows : List (List PyValue)
deriving DecidableEq, Repr

/-- The exceptions the embedded code raises.  `valueError`,
`attributeError` and `indexError` are Python's; `appError` stands for the
repository's `GraphBuilderException` subclasses (HTTP status plus message);
`graphCreationError` carries the `details` dict (stringified values) of the
repository's `GraphCreationError`. -/
inductive PyErr where
  | valueError (msg : String)
  | attributeError (msg : String)
  | indexError (msg : String)
  | appError (status : Nat) (msg : String)
  | graphCreationError (msg : String) (details : List (String × String))
deriving DecidableEq, Repr

/-- Python `str(e)` of an exception: for the repository's
`GraphBuilderException` subclasses `__init__` passes only `self.message` to
`Exception`, so `str(e)` is the message and the `details` dict is not part
of it. -/
def PyErr.pyStr : PyErr → String
  | .valueError m => m
  | .attributeError m => m
  | .indexError m => m
  | .appError _ m => m
  | .graphCreationError m _ => m

/-- Value of column `c` in a row (`row` aligned with `cols`).  Only reached
for `c ∈ cols` in the embedded code; the `nan` fallback is dead. -/
def colValue : List String → List PyValue → String → PyValue
  | c0 :: cs, v :: vs, c => if c0 = c then v else colValue cs vs c
  | _, _, _ => PyValue.nan

/-- pandas column projection `df[cols]`: the new frame has exactly the
requested columns, in the requested order. -/
def dfSelect (df : DataFrame) (cs : List String) : DataFrame :=
  ⟨cs, df.rows.map (fun r => cs.map (colValue df.cols r))⟩

/-- Python dict update `d[k] = v` on an insertion-ordered dict rendered as a
key-value list: an existing key keeps its position and gets the new value, a
new key is appended. -/
def dictSet (d : List (String × PyValue)) (k : String) (v : PyValue) :
    List (String × PyValue) :=
  if d.any (fun p => p.1 = k) then
    d.map (fun p => if p.1 = k then (k, v) else p)
  else d ++ [(k, v)]

/-- Same update for the resolver's string-valued `info` dict. -/
def infoSet (d : List (String × String)) (k : String) (v : String) :
    List (String × String) :=
  if d.any (fun p => p.1 = k) then
    d.map (fun p => if p.1 = k then (k, v) else p)
  else d ++ [(k, v)]

/-- Embeds `app.utils.data_manip.check_cols_exist_in_db`: collects the
requested columns that exist in the frame (in request order) and an info
dict; raises `ValueError` only when NOT ONE of the requested columns exists
(so a non-empty strict subset is returned without error, and an empty
request always raises). -/
def check_cols_exist_in_db (data : DataFrame) (cols : List String) :
    Except PyErr (List String × List (String × String)) :=
  let r := cols.foldl
    (fun (acc : List String × List (String × String)) col =>
      if col ∈ data.cols then
        (acc.1 ++ [col], infoSet acc.2 col "exist in data columns")
      else
        (acc.1, infoSet acc.2 col "not in data columns"))
    ([], [])
  if r.1.isEmpty then
    .error (.valueError "Your columns does not exist in the data columns")
  else .ok r

/-- Embeds `app.services.neo4j.ingest.find_data_frame`: scans the table
mapping in insertion order; for each frame, `check_cols_exist_in_db` either
returns the subset of `props` present (then that frame, narrowed to the
subset, is returned at once) or raises `ValueError` (then the scan
continues); when every frame raised, re-raises naming all required props. -/
def find_data_frame (data_dico : List (String × DataFrame)) (props : List String) :
    Except PyErr (String × DataFrame) :=
  match data_dico with
  | [] => .error (.valueError
      ("No dataframe found containing all required properties: " ++ pyReprStrList props))
  | (df_name, df) :: rest =>
    match check_cols_exist_in_db df props with
    | .ok (exist_cols, _) => .ok (df_name, dfSelect df exist_cols)
    | .error _ => find_data_frame rest props

/-- Consecutive slices of size `bs` (the last possibly shorter): Python's
`[lst[i:i+bs] for i in range(0, len(lst), bs)]` for `bs > 0`, with the slice
starts `0, bs, 2*bs, ...` enumerated just as `range` does.  (`bs = 0` yields
`[]`; Python's `range` would reject a zero step, and no embedded call passes
one.) -/
def chunksOf (bs : Nat) (l : List α) : List (List α) :=
  (List.range ((l.length + bs - 1) / bs)).map (fun i => (l.drop (i * bs)).take bs)

/-- Lowercase hex rendering of the low 8 bits of a byte. -/
def hexByte (n : Nat) : String :=
  let digits := "0123456789abcdef".toList
  String.mk [digits.getD (n / 16 % 16) '0', digits.getD (n % 16) '0']

/-- 32-bit left rotation (values kept below `2 ^ 32`). -/
def rotl32 (x k : Nat) : Nat :=
  ((x <<< k) ||| (x >>> (32 - k))) % 4294967296

/-- UTF-8 encoding of one code point. -/
def utf8Bytes (c : Char) : List Nat :=
  let n := c.toNat
  if n < 128 then [n]
  else if n < 2048 then [192 + n / 64, 128 + n % 64]
  else if n < 65536 then [224 + n / 4096, 128 + n / 64 % 64, 128 + n % 64]
  else [240 + n / 262144, 128 + n / 4096 % 64, 128 + n / 64 % 64, 128 + n % 64]

/-- The UTF-8 bytes of a string, as `hashlib` receives `s.encode()`. -/
def strBytes (s : String) : List Nat :=
  (s.data.map utf8Bytes).flatten

/-- Merkle-Damgard padding shared by SHA-1 and MD5: append `0x80`, zero-fill
to 56 mod 64, then the 8-byte bit length (big-endian when `be`, else
little-endian). -/
def padMessage (be : Bool) (msg : List Nat) : List Nat :=
  let bitLen := 8 * msg.length
  let padLen := (56 + 64 - (msg.length + 1) % 64) % 64
  let lenBytes := (List.range 8).map (fun i =>
    if be then (bitLen >>> (8 * (7 - i))) % 256 else (bitLen >>> (8 * i)) % 256)
  msg ++ [128] ++ List.replicate padLen 0 ++ lenBytes

/-- One SHA-1 block step: absorbs a 64-byte block into the five chaining
words. -/
def sha1Block (h : Nat × Nat × Nat × Nat × Nat) (block : List Nat) :
    Nat × Nat × Nat × Nat × Nat :=
  let m32 := 4294967296
  let w16 : Array Nat := ((List.range 16).map (fun i =>
    (block.getD (4 * i) 0) <<< 24 ||| (block.getD (4 * i + 1) 0) <<< 16 |||
    (block.getD (4 * i + 2) 0) <<< 8 ||| block.getD (4 * i + 3) 0)).toArray
  let w := (List.range 64).foldl (fun (w : Array Nat) _ =>
    let i := w.size
    w.push (rotl32
      (w.getD (i - 3) 0 ^^^ w.getD (i - 8) 0 ^^^ w.getD (i - 14) 0 ^^^ w.getD (i - 16) 0)
      1)) w16
  let (h0, h1, h2, h3, h4) := h
  let (a, b, c, d, e) := (List.range 80).foldl
    (fun (s : Nat × Nat × Nat × Nat × Nat) i =>
      let (a, b, c, d, e) := s
      let (f, k) :=
        if i < 20 then ((b &&& c) ||| ((4294967295 - b) &&& d), 0x5A827999)
        else if i < 40 then (b ^^^ c ^^^ d, 0x6ED9EBA1)
        else if i < 60 then ((b &&& c) ||| (b &&& d) ||| (c &&& d), 0x8F1BBCDC)
        else (b ^^^ c ^^^ d, 0xCA62C1D6)
      let temp := (rotl32 a 5 + f + e + k + w.getD i 0) % m32
      (temp, a, rotl32 b 30, c, d))
    (h0, h1, h2, h3, h4)
  ((h0 + a) % m32, (h1 + b) % m32, (h2 + c) % m32, (h3 + d) % m32, (h4 + e) % m32)

/-- SHA-1 (FIPS 180-1) of a byte list, hex digest: embeds
`hashlib.sha1(x).hexdigest()`. -/
def sha1_hex (msg : List Nat) : String :=
  let blocks := chunksOf 64 (padMessage true msg)
  let (h0, h1, h2, h3, h4) := blocks.foldl sha1Block
    (0x67452301, 0xEFCDAB89, 0x98BADCFE, 0x10325476, 0xC3D2E1F0)
  let hex32 := fun (h : Nat) =>
    String.join ((List.range 4).map (fun i => hexByte ((h >>> (8 * (3 - i))) % 256)))
  hex32 h0 ++ hex32 h1 ++ hex32 h2 ++ hex32 h3 ++ hex32 h4

/-- The 64 MD5 round constants `floor(abs(sin(i + 1)) * 2 ^ 32)` (RFC 1321). -/
def md5K : Array Nat := #[
  0xd76aa478, 0xe8c7b756, 0x242070db, 0xc1bdceee,
  0xf57c0faf, 0x4787c62a, 0xa8304613, 0xfd469501,
  0x698098d8, 0x8b44f7af, 0xffff5bb1, 0x895cd7be,
  0x6b901122, 0xfd987193, 0xa679438e, 0x49b40821,
  0xf61e2562, 0xc040b340, 0x265e5a51, 0xe9b6c7aa,
  0xd62f105d, 0x02441453, 0xd8a1e681, 0xe7d3fbc8,
  0x21e1cde6, 0xc33707d6, 0xf4d50d87, 0x455a14ed,
  0xa9e3e905, 0xfcefa3f8, 0x676f02d9, 0x8d2a4c8a,
  0xfffa3942, 0x8771f681, 0x6d9d6122, 0xfde5380c,
  0xa4beea44, 0x4bdecfa9, 0xf6bb4b60, 0xbebfbc70,
  0x289b7ec6, 0xeaa127fa, 0xd4ef3085, 0x04881d05,
  0xd9d4d039, 0xe6db99e5, 0x1fa27cf8, 0xc4ac5665,
  0xf4292244, 0x432aff97, 0xab9423a7, 0xfc93a039,
  0x655b59c3, 0x8f0ccc92, 0xffeff47d, 0x85845dd1,
  0x6fa87e4f, 0xfe2ce6e0, 0xa3014314, 0x4e0811a1,
  0xf7537e82, 0xbd3af235, 0x2ad7d2bb, 0xeb86d391]

/-- The 64 MD5 per-round left-rotation amounts (RFC 1321). -/
def md5S : Array Nat := #[
  7, 12, 17, 22, 7, 12, 17, 22, 7, 12, 17, 22, 7, 12, 17, 22,
  5, 9, 14, 20, 5, 9, 14, 20, 5, 9, 14, 20, 5, 9, 14, 20,
  4, 11, 16, 23, 4, 11, 16, 23, 4, 11, 16, 23, 4, 11, 16, 23,
  6, 10, 15, 21, 6, 10, 15, 21, 6, 10, 15, 21, 6, 10, 15, 21]

/-- One MD5 block step: absorbs a 64-byte block into the four chaining
words. -/
def md5Block (h : Nat × Nat × Nat × Nat) (block : List Nat) :
    Nat × Nat × Nat × Nat :=
  let m32 := 4294967296
  let m : Array Nat := ((List.range 16).map (fun i =>
    block.getD (4 * i) 0 ||| (block.getD (4 * i + 1) 0) <<< 8 |||
    (block.getD (4 * i + 2) 0) <<< 16 ||| (block.getD (4 * i + 3) 0) <<< 24)).toArray
  let (a0, b0, c0, d0) := h
  let (a, b, c, d) := (List.range 64).foldl
    (fun (s : Nat × Nat × Nat × Nat) i =>
      let (a, b, c, d) := s
      let (f, g) :=
        if i < 16 then ((b &&& c) ||| ((4294967295 - b) &&& d), i)
        else if i < 32 then ((d &&& b) ||| ((4294967295 - d) &&& c), (5 * i + 1) % 16)
        else if i < 48 then (b ^^^ c ^^^ d, (3 * i + 5) % 16)
        else (c ^^^ (b ||| (4294967295 - d)), (7 * i) % 16)
      let rot := rotl32 ((a + f + md5K.getD i 0 + m.getD g 0) % m32) (md5S.getD i 0)
      (d, (b + rot) % m32, b, c))
    (a0, b0, c0, d0)
  ((a0 + a) % m32, (b0 + b) % m32, (c0 + c) % m32, (d0 + d) % m32)

/-- MD5 (RFC 1321) of a byte list, hex digest: embeds
`hashlib.md5(x).hexdigest()`. -/
def md5_hex (msg : List Nat) : String :=
  let blocks := chunksOf 64 (padMessage false msg)
  let (a0, b0, c0, d0) := blocks.foldl md5Block
    (0x67452301, 0xefcdab89, 0x98badcfe, 0x10325476)
  let hexLE := fun (h : Nat) =>
    String.join ((List.range 4).map (fun i => hexByte ((h >>> (8 * i)) % 256)))
  hexLE a0 ++ hexLE b0 ++ hexLE c0 ++ hexLE d0

set_option maxRecDepth 100000 in
/-- RFC 1321 test vector, checking the embedding of `hashlib.md5`. -/
example : md5_hex [] = "d41d8cd98f00b204e9800998ecf8427e" := by decide

set_option maxRecDepth 100000 in
/-- FIPS 180-1 test vector, checking the embedding of `hashlib.sha1`. -/
example : sha1_hex (strBytes "abc") = "a9993e364706816aba3e25717850c26c9cd0d89d" := by
  decide

/-- Lexicographic comparison of character lists by code point: Python's
string `<`, which `sorted` applies to the tuples' string keys (and the
comparison Lean's `String` order also denotes). -/
def strLtb : List Char → List Char → Bool
  | [], [] => false
  | [], _ :: _ => true
  | _ :: _, [] => false
  | a :: as, b :: bs =>
    if a.toNat < b.toNat then true
    else if b.toNat < a.toNat then false
    else strLtb as bs

/-- Python string `<` on strings. -/
def pyStrLt (s t : String) : Bool :=
  strLtb s.data t.data

/-- Python string `<=` (the order is total, so `s <= t` iff not `t < s`). -/
def pyStrLe (s t : String) : Bool :=
  ! pyStrLt t s

/-- Comparison of scalar values, used only to order `(key, value)` tuples
with equal keys.  Python compares equal-typed values directly and raises
`TypeError` across types; since dict keys are unique, `sorted(d.items())`
never actually compares values, so any total order is extensionally faithful
here — this one ranks `nan < int < str` and compares within a type. -/
def pyValueLe : PyValue → PyValue → Bool
  | .nan, _ => true
  | .int _, .nan => false
  | .int m, .int n => m ≤ n
  | .int _, .str _ => true
  | .str s, .str t => pyStrLe s t
  | .str _, _ => false

/-- Python tuple comparison on `(key, value)` pairs as `sorted` uses it:
keys first, values only on key ties (which unique dict keys never
produce). -/
def pairLe (a b : String × PyValue) : Bool :=
  pyStrLt a.1 b.1 || (decide (a.1 = b.1) && pyValueLe a.2 b.2)

/-- Python `sorted(props.items())`: a stable comparison sort of the
key-value pairs under tuple order.  (Embedded as insertion sort, which
agrees with any stable sort on these inputs: dict items have pairwise
distinct keys, so no two items ever compare equal.) -/
def sortPairs (l : List (String × PyValue)) : List (String × PyValue) :=
  l.insertionSort (fun a b => pairLe a b = true)

/-- The synthetic node/relationship id of `graph_element_props`:
`hashlib.sha1(raw_key.encode()).hexdigest()` of
`raw_key = f"{label}:{sorted(props.items())}"`. -/
def node_id (label : String) (props : List (String × PyValue)) : String :=
  sha1_hex (strBytes (label ++ ":" ++ pyReprPairs (sortPairs props)))

/-- The pydantic `GraphElement` model of `app.models.graph_config`: a label
and the list of column names supplying the element's properties. -/
structure GraphElement where
  label : String
  properties : List String
deriving DecidableEq, Repr

/-- The pydantic `GraphConfig` model: one projection rule. -/
structure GraphConfig where
  source : GraphElement
  target : GraphElement
  rels : GraphElement
deriving DecidableEq, Repr

/-- One synthesized node/relationship instance, the
`{"label": ..., "properties": ...}` dict `graph_element_props` builds. -/
structure GraphElementRecord where
  label : String
  properties : List (String × PyValue)
deriving DecidableEq, Repr

/-- One `{"source": ..., "target": ..., "rels": ...}` block of
`source_to_target_rels`. -/
structure ProjectedEdge where
  source : GraphElementRecord
  target : GraphElementRecord
  rels : GraphElementRecord
deriving DecidableEq, Repr

/-- Embeds `app.services.neo4j.graph_api.graph_element_props`: narrows the
frame to the requested columns that exist (via `check_cols_exist_in_db`),
turns each row into a records dict (`to_dict(orient="records")`), computes
the synthetic id from the label and the sorted items of that dict, and
stores it under key `"id"` — overwriting the value of a column literally
named `id`, since Python dict assignment replaces in place.  The function's
`except` clause re-raises any failure as `ValueError`. -/
def graph_element_props (data : DataFrame) (label : String) (props : List String) :
    Except PyErr (List GraphElementRecord) :=
  match check_cols_exist_in_db data props with
  | .error e => .error (.valueError e.pyStr)
  | .ok (graph_props, _) =>
    let gdf := dfSelect data graph_props
    let records := gdf.rows.map (fun r => gdf.cols.zip r)
    .ok (records.map (fun rec =>
      ⟨label, dictSet rec "id" (.str (node_id label rec))⟩))

/-- Python `zip` over the three per-row record lists (all the same length
in every embedded call; `zip` truncates to the shortest). -/
def zip3Edges : List GraphElementRecord → List GraphElementRecord →
    List GraphElementRecord → List ProjectedEdge
  | s :: ss, t :: ts, r :: rs => ⟨s, t, r⟩ :: zip3Edges ss ts rs
  | _, _, _ => []

/-- Embeds `app.services.neo4j.graph_api.source_to_target_rels`: one
`ProjectedEdge` per row, each of the three records restricted to its own
spec's columns. -/
def source_to_target_rels (data : DataFrame) (graph_config : GraphConfig) :
    Except PyErr (List ProjectedEdge) :=
  match graph_element_props data graph_config.source.label
      graph_config.source.properties with
  | .error e => .error e
  | .ok source_props_list =>
    match graph_element_props data graph_config.target.label
        graph_config.target.properties with
    | .error e => .error e
    | .ok target_props_list =>
      match graph_element_props data graph_config.rels.label
          graph_config.rels.properties with
      | .error e => .error e
      | .ok rels_props_list =>
        .ok (zip3Edges source_props_list target_props_list rels_props_list)

/-- Python `list(set(xs) & set(ys))`: the set of shared column names.  A
Python set iterates in an unspecified order; the embedding fixes the left
operand's order (membership, the only thing the join result depends on, is
order-independent). -/
def setIntersection (xs ys : List String) : List String :=
  (xs.filter (fun c => c ∈ ys)).dedup

/-- pandas `left.join(right, on=on, how="right")` with the default empty
suffixes, which is `merge(left, right, left_on=on, right_index=True,
how="right", suffixes=("", ""))`: merge first validates that `on` has
exactly as many columns as `right`'s index has levels (one, a fresh
`RangeIndex`), then refuses overlapping column names because both suffixes
are empty; only a single non-overlapping key column would reach the actual
index join, which matches the key's values against `right`'s positional
row numbers `0, 1, 2, ...`, keeps every `right` row, and fills `left`'s
columns with NaN where no key value matches the row number.  (The error
strings abbreviate pandas' messages.) -/
def pandas_join_right (left right : DataFrame) (onCols : List String) :
    Except PyErr DataFrame :=
  if onCols.length ≠ 1 then
    .error (.valueError "len(left_on) must equal the number of levels in the index of right")
  else
    let overlap := left.cols.filter (fun c => c ∈ right.cols)
    if ¬ overlap.isEmpty then
      .error (.valueError ("columns overlap but no suffix specified: " ++
        pyReprStrList overlap))
    else
      let key := onCols.headD ""
      let rows := (right.rows.enum.map (fun p =>
        let i := p.1
        let rrow := p.2
        let ms := left.rows.filter (fun lrow => colValue left.cols lrow key = .int i)
        if ms.isEmpty then [List.replicate left.cols.length PyValue.nan ++ rrow]
        else ms.map (fun lrow => lrow ++ rrow))).flatten
      .ok ⟨left.cols ++ right.cols, rows⟩

/-- pandas `DataFrame` has no `collect` attribute (that is a polars
`LazyFrame` method the port kept), so `str_df_lazy.collect()` always raises
`AttributeError`. -/
def pandasCollect (_df : DataFrame) : Except PyErr DataFrame :=
  .error (.attributeError "'DataFrame' object has no attribute 'collect'")

/-- Embeds `app.services.neo4j.ingest.create_data_frame_from_props_block`:
resolves a frame per spec, right-joins source with target on their shared
columns, right-joins that with the relationship frame on their shared
columns, and calls `.collect()` on the result. -/
def create_data_frame_from_props_block (data_dico : List (String × DataFrame))
    (props_block : GraphConfig) : Except PyErr DataFrame :=
  match find_data_frame data_dico props_block.source.properties with
  | .error e => .error e
  | .ok sp =>
    match find_data_frame data_dico props_block.target.properties with
    | .error e => .error e
    | .ok tp =>
      match find_data_frame data_dico props_block.rels.properties with
      | .error e => .error e
      | .ok rp =>
        let source_df := sp.2
        let target_df := tp.2
        let rels_df := rp.2
        let st_intersection := setIntersection source_df.cols target_df.cols
        match pandas_join_right source_df target_df st_intersection with
        | .error e => .error e
        | .ok st_df_lazy =>
          let str_intersection := setIntersection st_df_lazy.cols rels_df.cols
          match pandas_join_right st_df_lazy rels_df str_intersection with
          | .error e => .error e
          | .ok str_df_lazy => pandasCollect str_df_lazy

/-- The `for graph_config_bloc in graph_config_list` loop of
`create_graph_api`'s single-table branch: projects every rule over the one
cached frame, extending the accumulated edge list. -/
def run_configs_single (data : DataFrame) :
    List GraphConfig → Except PyErr (List ProjectedEdge)
  | [] => .ok []
  | cfg :: rest =>
    match source_to_target_rels data cfg with
    | .error e => .error e
    | .ok es =>
      match run_configs_single data rest with
      | .error e => .error e
      | .ok more => .ok (es ++ more)

/-- The loop of `create_graph_api`'s multi-table branch: per rule, builds
the joined frame with `create_data_frame_from_props_block` and projects the
rule over it. -/
def run_configs_multi (data_dico : List (String × DataFrame)) :
    List GraphConfig → Except PyErr (List ProjectedEdge)
  | [] => .ok []
  | cfg :: rest =>
    match create_data_frame_from_props_block data_dico cfg with
    | .error e => .error e
    | .ok data =>
      match source_to_target_rels data cfg with
      | .error e => .error e
      | .ok es =>
        match run_configs_multi data_dico rest with
        | .error e => .error e
        | .ok more => .ok (es ++ more)

/-- Embeds `app.services.neo4j.graph_api.create_graph_api`: branches on
`len(data_dico) > 1` — the join pipeline when the session holds more than
one table, otherwise `list(data_dico.values())[0]` (an `IndexError` on an
empty mapping) and direct row iteration. -/
def create_graph_api (graph_config_list : List GraphConfig)
    (data_dico : List (String × DataFrame)) : Except PyErr (List ProjectedEdge) :=
  if data_dico.length > 1 then run_configs_multi data_dico graph_config_list
  else
    match data_dico with
    | [] => .error (.indexError "list index out of range")
    | (_, df) :: _ => run_configs_single df graph_config_list

/-- The statistics dict `Neo4jGraphCreation.create_graph_data` returns on
success (`elapsed_time_sec`, wall-clock time, is outside the embedding). -/
structure GraphStats where
  configs_processed : Nat
  batches : Nat
deriving DecidableEq, Repr

deriving instance DecidableEq for Except

/-- Observable outcome of one `create_graph_data` call against the graph
store: the edges committed by successful batches (in order), the number of
loop iterations that ran (batches attempted), and the returned statistics
or raised error. -/
structure WriteOutcome where
  committed : List ProjectedEdge
  attempted : Nat
  result : Except PyErr GraphStats
deriving DecidableEq, Repr

/-- The `for batch_idx, batch in enumerate(batches, 1)` loop: `_create_batch`
returns immediately on an empty batch (no store call, cannot fail),
otherwise issues one store query — `store_ok idx` says whether the store
accepts batch `idx`.  On success the batch's edges are committed and the
loop continues; on failure the loop stops (later batches are never
attempted) and the failing 1-based index is reported.  Returns
(committed edges, batches attempted, failing index if any). -/
def run_batches (store_ok : Nat → Bool) :
    Nat → List (List ProjectedEdge) → List ProjectedEdge × Nat × Option Nat
  | _, [] => ([], 0, none)
  | idx, b :: rest =>
    if b.isEmpty then
      let (c, a, f) := run_batches store_ok (idx + 1) rest
      (c, a + 1, f)
    else if store_ok idx then
      let (c, a, f) := run_batches store_ok (idx + 1) rest
      (b ++ c, a + 1, f)
    else ([], 1, some idx)

/-- Python `batch_size = batch_size or self.batch_size`: `None` and `0` are
falsy and fall back to the instance default. -/
def effectiveBatchSize (self_batch_size : Nat) (batch_size : Option Nat) : Nat :=
  match batch_size with
  | none => self_batch_size
  | some n => if n = 0 then self_batch_size else n

/-- Embeds `Neo4jGraphCreation.create_graph_data`: raises
`GraphCreationError("Empty graph configuration list")` on an empty edge
list (before the `try` block, so unwrapped); otherwise splits the list into
consecutive `batch_size` slices and processes them strictly sequentially.
When `_create_batch` raises at batch `idx`, the loop raises
`GraphCreationError(f"Failed to process batch {idx}", details=error and
batch size)`; that inner exception is then caught by the function's own
`except Exception` handler and re-wrapped as
`GraphCreationError("Failed to create graph", details=str(inner) and total
config count)` — `str(inner)` is only the inner message, so the surfaced
details carry neither the failed batch's size nor any committed count. -/
def neo4j_create_graph_data (self_batch_size : Nat)
    (graph_config_list : List ProjectedEdge) (batch_size : Option Nat)
    (store_ok : Nat → Bool) : WriteOutcome :=
  let total_configs := graph_config_list.length
  if total_configs = 0 then
    ⟨[], 0, .error (.graphCreationError "Empty graph configuration list" [])⟩
  else
    let bs := effectiveBatchSize self_batch_size batch_size
    let batches := chunksOf bs graph_config_list
    let (committed, attempted, failed) := run_batches store_ok 1 batches
    match failed with
    | none => ⟨committed, attempted, .ok ⟨total_configs, batches.length⟩⟩
    | some idx =>
      ⟨committed, attempted, .error (.graphCreationError "Failed to create graph"
        [("error", "Failed to process batch " ++ toString idx),
         ("configs", toString total_configs)])⟩

/-- Lookup in an insertion-ordered Python dict rendered as a key-value
list. -/
def alistLookup (d : List (String × α)) (k : String) : Option α :=
  match d with
  | [] => none
  | (k0, v) :: rest => if k0 = k then some v else alistLookup rest k

/-- Python `d[k] = v`: an existing key keeps its position, a new key is
appended. -/
def alistSet (d : List (String × α)) (k : String) (v : α) : List (String × α) :=
  match d with
  | [] => [(k, v)]
  | (k0, v0) :: rest =>
    if k0 = k then (k, v) :: rest else (k0, v0) :: alistSet rest k v

/-- Python `d.pop(k, None)` / file unlink: the entry removed. -/
def alistErase (d : List (String × α)) (k : String) : List (String × α) :=
  match d with
  | [] => []
  | (k0, v0) :: rest => if k0 = k then rest else (k0, v0) :: alistErase rest k

/-- The session dict `SessionManager.create_session` builds (the unused
`table_data`, `dataframe_count` and `total_rows` entries carry no behaviour
the claims touch and are derived fields; `created_at` is the `time.time()`
float, embedded as `Int`). -/
structure SessionData where
  created_at : Int
  source_type : String
  dataframes : List (String × DataFrame)
deriving DecidableEq, Repr

/-- What `get_session_info` returns: the session dict with the
`dataframes` payload popped. -/
structure SessionInfo where
  created_at : Int
  source_type : String
deriving DecidableEq, Repr

/-- A `SessionManager` instance plus the filesystem state it touches:
`memory` is `self._sessions`, `disk` the pickled `session_*.pkl` files of
`cache_dir` (keyed by session id), and `unlink_fails` the ids whose file
removal raises an `OSError` (modelling an I/O fault on delete). -/
structure SMState where
  session_timeout : Int
  memory : List (String × SessionData)
  disk : List (String × SessionData)
  unlink_fails : List String
deriving DecidableEq, Repr

/-- A fresh `SessionManager(cache_dir, session_timeout)` over an empty
cache directory. -/
def initSM (session_timeout : Int) : SMState :=
  ⟨session_timeout, [], [], []⟩

/-- Embeds `SessionManager.delete_session`: pops the in-memory entry, then
unlinks the durable file if it exists; returns `True` whenever no exception
occurred — also when nothing existed — and catches an unlink error, leaving
the durable copy in place and returning `False`. -/
def delete_session (st : SMState) (session_id : String) : Bool × SMState :=
  let st1 := { st with memory := alistErase st.memory session_id }
  if (alistLookup st.disk session_id).isSome then
    if session_id ∈ st.unlink_fails then (false, st1)
    else (true, { st1 with disk := alistErase st1.disk session_id })
  else (true, st1)

/-- Embeds `SessionManager._load_session_metadata`: reads the durable copy
if present; a copy older than `session_timeout` (strictly) is evicted via
`delete_session` and reported absent. -/
def load_session_metadata (st : SMState) (now : Int) (session_id : String) :
    Option SessionData × SMState :=
  match alistLookup st.disk session_id with
  | none => (none, st)
  | some d =>
    if now - d.created_at > st.session_timeout then
      let (_, st1) := delete_session st session_id
      (none, st1)
    else (some d, st)

/-- Embeds `SessionManager.create_session`: persists the session dict to
disk and mirrors it in memory (overwriting any previous entry under the
same id), returning the id. -/
def create_session (st : SMState) (now : Int) (session_id : String)
    (dataframes : List (String × DataFrame)) (source_type : String) :
    String × SMState :=
  let d : SessionData := ⟨now, source_type, dataframes⟩
  (session_id,
    { st with
      disk := alistSet st.disk session_id d,
      memory := alistSet st.memory session_id d })

/-- Embeds `SessionManager.get_session`: the in-memory copy is served while
`now - created_at <= timeout` (so an access at elapsed exactly the timeout
still finds it); an expired in-memory copy is evicted and the disk copy is
consulted, loaded entries being cached back into memory. -/
def get_session (st : SMState) (now : Int) (session_id : String) :
    Option SessionData × SMState :=
  let fromDisk := fun (s : SMState) =>
    let (r, s1) := load_session_metadata s now session_id
    match r with
    | some d => (some d, { s1 with memory := alistSet s1.memory session_id d })
    | none => (none, s1)
  match alistLookup st.memory session_id with
  | some d =>
    if now - d.created_at ≤ st.session_timeout then (some d, st)
    else fromDisk { st with memory := alistErase st.memory session_id }
  | none => fromDisk st

/-- Embeds `SessionManager.get_dataframes`:
`session.get('dataframes') if session else None`. -/
def get_dataframes (st : SMState) (now : Int) (session_id : String) :
    Option (List (String × DataFrame)) × SMState :=
  let (s, st1) := get_session st now session_id
  (s.map SessionData.dataframes, st1)

/-- Embeds `SessionManager.get_session_info`: the session dict without the
`dataframes` payload. -/
def get_session_info (st : SMState) (now : Int) (session_id : String) :
    Option SessionInfo × SMState :=
  let (s, st1) := get_session st now session_id
  (s.map (fun d => ⟨d.created_at, d.source_type⟩), st1)

/-- The first loop of `SessionManager.list_sessions` over a snapshot of the
in-memory entries: an unexpired entry is added to `active_sessions` (with
whatever `get_session_info` returns — `active_sessions[sid] =
self.get_session_info(sid)` assigns unconditionally); an expired one is
deleted from memory. -/
def list_sessions_memory (now : Int) :
    List (String × SessionData) → SMState → List (String × Option SessionInfo) →
    List (String × Option SessionInfo) × SMState
  | [], st, active => (active, st)
  | (sid, d) :: rest, st, active =>
    if now - d.created_at ≤ st.session_timeout then
      let (info, st1) := get_session_info st now sid
      list_sessions_memory now rest st1 (alistSet active sid info)
    else
      list_sessions_memory now rest
        { st with memory := alistErase st.memory sid } active

/-- The second loop of `SessionManager.list_sessions` over the cache
directory's session files (a snapshot of the durable ids): an id not yet
listed is added when `get_session_info` finds it valid (expired entries are
evicted by that call as a side effect and skipped). -/
def list_sessions_disk (now : Int) :
    List String → SMState → List (String × Option SessionInfo) →
    List (String × Option SessionInfo) × SMState
  | [], st, active => (active, st)
  | sid :: rest, st, active =>
    if (alistLookup active sid).isSome then list_sessions_disk now rest st active
    else
      let (info, st1) := get_session_info st now sid
      match info with
      | some i => list_sessions_disk now rest st1 (alistSet active sid (some i))
      | none => list_sessions_disk now rest st1 active

/-- Embeds `SessionManager.list_sessions`: merges the in-memory snapshot
with durable entries not yet listed, skipping (and evicting) everything
found expired along the way. -/
def list_sessions (st : SMState) (now : Int) :
    List (String × Option SessionInfo) × SMState :=
  let (active, st1) := list_sessions_memory now st.memory st []
  list_sessions_disk now (st1.disk.map Prod.fst) st1 active

/-- An uploaded file as FastAPI's `UploadFile` exposes it: a filename and a
spooled byte stream with a read position.  `read()` returns everything from
the current position to the end and leaves the position there; `seek(0)`
rewinds. -/
structure UploadFile where
  filename : String
  content : List Nat
  pos : Nat
deriving DecidableEq, Repr

/-- `await file.read()`: the bytes from the current position to the end of
the stream; the position moves to the end. -/
def fileRead (f : UploadFile) : List Nat × UploadFile :=
  (f.content.drop f.pos, { f with pos := f.content.length })

/-- `await file.seek(0)`. -/
def fileSeekStart (f : UploadFile) : UploadFile :=
  { f with pos := 0 }

/-- The two settings the upload path reads (`settings.allowed_extensions`,
`settings.max_upload_size`). -/
structure Settings where
  allowed_extensions : List String
  max_upload_size : Nat
deriving DecidableEq, Repr

/-- Splitting a character list at every occurrence of a separator
character: Python `str.split(sep)` for a one-character separator (empty
parts preserved, `[[]]` for the empty string). -/
def splitOnChar (sep : Char) : List Char → List (List Char)
  | [] => [[]]
  | c :: rest =>
    match splitOnChar sep rest with
    | [] => [[]]
    | p :: ps => if c = sep then [] :: p :: ps else (c :: p) :: ps

/-- Joining parts with a separator character: Python `sep.join(parts)`. -/
def joinWithChar (sep : Char) (parts : List (List Char)) : List Char :=
  (parts.intersperse [sep]).flatten

/-- Python `str.lower()` restricted to ASCII (every extension and filename
the service compares is ASCII). -/
def pyLower (s : List Char) : List Char :=
  s.map (fun c =>
    if 65 ≤ c.toNat ∧ c.toNat ≤ 90 then Char.ofNat (c.toNat + 32) else c)

/-- Embeds `app.core.security.check_file_extension`: the lowercased text
after the last dot must be among the allowed extensions (case-insensitively);
no dot, or an empty name, fails. -/
def check_file_extension (allowed_extensions : List String) (filename : String) :
    Bool :=
  if filename = "" || ¬ filename.data.contains '.' then false
  else
    let extension := pyLower ((splitOnChar '.' filename.data).getLastD [])
    (allowed_extensions.map (fun e => pyLower e.data)).contains extension

/-- Embeds `app.core.security.sanitize_filename` (with its default
`max_length = 255`): strips directory components, control characters and
dangerous characters, truncates over-long names preserving the extension
(the embedding clamps the Python slice bound at zero where Python would
slice from the end, a case needing a 254-character extension), and falls
back to `"unnamed"`. -/
def sanitize_filename (filename : String) : String :=
  if filename = "" then "unnamed"
  else
    let s1 := (splitOnChar '/' filename.data).getLastD []
    let s2 := (splitOnChar '\\' s1).getLastD []
    let s3 := (s2.filter (fun c => 32 ≤ c.toNat)).filter (fun c => c ≠ '\x00')
    let s4 := "<>:\"|?*".data.foldl
      (fun (s : List Char) c => s.filter (fun c2 => c2 ≠ c)) s3
    let s5 :=
      if s4.length > 255 then
        if s4.contains '.' then
          let parts := splitOnChar '.' s4
          let ext := parts.getLastD []
          let name := joinWithChar '.' parts.dropLast
          name.take (255 - ext.length - 1) ++ '.' :: ext
        else s4.take 255
      else s4
    if s5 = [] || s5 = ['.'] || s5 = ['.', '.'] then "unnamed" else String.mk s5

/-- `pathlib.Path(filename).stem`: the name minus its suffix, where the
suffix starts at the last dot only if that dot is neither the first nor the
last character (the filenames reaching this have already been sanitized, so
they carry no directory separators). -/
def pathStem (filename : String) : String :=
  let cs := filename.toList
  let n := cs.length
  let dotIdxs := (List.range n).filter (fun i => cs.getD i ' ' = '.')
  match dotIdxs.getLast? with
  | some i => if 0 < i ∧ i < n - 1 then (cs.take i).asString else filename
  | none => filename

/-- The `TableData` response model of `app.models.response_data` (the
preview rows are record dicts of the first five rows). -/
structure TableData where
  table_name : String
  columns : List String
  total_rows : Nat
  total_columns : Nat
  preview : Option (List (List (String × PyValue)))
deriving DecidableEq, Repr

/-- The external ingestion collaborator
`app.services.file_loader.load_file`: raw file-format decoding is outside
the specified core ("produces a table"), so the embedding takes the parser
as a parameter mapping the bytes it is handed (and the filename) to a frame
or a parse error. -/
def FileLoader : Type :=
  List Nat → String → Except PyErr DataFrame

/-- The validation loop of `upload_files`: per file, sanitizes the filename,
rejects a disallowed extension (`InvalidFileFormatError`, 400), reads the
whole stream to measure it, rejects an oversized file
(`FileTooLargeError`, 413), and seeks back to the start. -/
def validate_files (settings : Settings) :
    List UploadFile → Except PyErr (List UploadFile)
  | [] => .ok []
  | f :: rest =>
    let f1 := { f with filename := sanitize_filename f.filename }
    if ¬ check_file_extension settings.allowed_extensions f1.filename then
      .error (.appError 400 ("Invalid file format for " ++ f1.filename ++
        ". Expected: " ++ String.intercalate ", " settings.allowed_extensions))
    else
      let (content, f2) := fileRead f1
      if content.length > settings.max_upload_size then
        .error (.appError 413 ("File " ++ f2.filename ++ " is too large (" ++
          toString content.length ++ " bytes). Maximum size: " ++
          toString settings.max_upload_size ++ " bytes"))
      else
        match validate_files settings rest with
        | .error e => .error e
        | .ok rest1 => .ok (fileSeekStart f2 :: rest1)

/-- Embeds `app.services.ingest._create_data_frame_from_files`: per file,
reads the stream from its current position to the end (never seeking back),
parses the bytes into a frame, and records frame and metadata under the
filename's stem.  Returns the result alongside the files with their
advanced positions (on a parse error the loop re-raises at once). -/
def create_data_frame_from_files (load_file : FileLoader) :
    List UploadFile → List (String × TableData) → List (String × DataFrame) →
    Except PyErr (List (String × TableData) × List (String × DataFrame)) ×
      List UploadFile
  | [], table_data, dataframes => (.ok (table_data, dataframes), [])
  | f :: rest, table_data, dataframes =>
    let (content, f1) := fileRead f
    let filename := if f1.filename = "" then "unknown" else f1.filename
    let table_name := pathStem filename
    match load_file content filename with
    | .error e => (.error e, f1 :: rest)
    | .ok df =>
      let td : TableData := ⟨table_name, df.cols, df.rows.length, df.cols.length,
        if df.rows.length > 0 then
          some ((df.rows.take 5).map (fun r => df.cols.zip r))
        else none⟩
      let (res, rest1) := create_data_frame_from_files load_file rest
        (alistSet table_data table_name td) (alistSet dataframes table_name df)
      (res, f1 :: rest1)

/-- Embeds the `upload_files` endpoint of `app.api.v1.endpoints.files`:
rejects an empty upload (400), validates every file (reading each stream
and seeking back), lets `create_data_frame` read every file to its end —
without seeking back — and then computes the session id as the MD5 hex
digest of `await files[0].read()`, i.e. of whatever bytes remain in the
first file's already-exhausted stream.  Any failure inside the `try` block
is re-raised as `DataIngestionError` (500).  Returns the session id and the
session-manager state after `create_session`. -/
def upload_files (load_file : FileLoader) (settings : Settings) (sm : SMState)
    (now : Int) (files : List UploadFile) : Except PyErr (String × SMState) :=
  if files.isEmpty then .error (.appError 400 "No files provided")
  else
    match validate_files settings files with
    | .error e => .error e
    | .ok files1 =>
      match create_data_frame_from_files load_file files1 [] [] with
      | (.error _, _) => .error (.appError 500 "Failed to process uploaded files")
      | (.ok (_, dataframes), files2) =>
        match files2 with
        | [] => .error (.appError 500 "Failed to process uploaded files")
        | f0 :: _ =>
          let (first_file_content, _) := fileRead f0
          let session_id := md5_hex first_file_content
          let (sid, sm1) := create_session sm now session_id dataframes "file"
          .ok (sid, sm1)

/-- Embeds the `create_graph_data` endpoint of
`app.api.v1.endpoints.graph_builder`: 404 when the session is unknown or
expired, 404 when the session resolves to no (or an empty) table mapping,
400 when the rule list is empty; otherwise runs `create_graph_api`, applies
the truthy `limit` slice, and hands the edges to the writer with
`batch_size=1000`.  Exceptions from projection or write surface as 500
`"Failed to create graph data: ..."`. -/
def create_graph_data_endpoint (st : SMState) (now : Int) (session_id : String)
    (graph_config_list : List GraphConfig) (limit : Option Nat)
    (store_ok : Nat → Bool) : Except PyErr GraphStats × SMState :=
  let (info, st1) := get_session_info st now session_id
  if info.isNone then
    (.error (.appError 404 "Session not found or expired"), st1)
  else
    let (dfs, st2) := get_dataframes st1 now session_id
    match dfs with
    | none => (.error (.appError 404 "No data found for this session"), st2)
    | some dataframes =>
      if dataframes.isEmpty then
        (.error (.appError 404 "No data found for this session"), st2)
      else if graph_config_list.isEmpty then
        (.error (.appError 400 "Graph configuration list is empty"), st2)
      else
        match create_graph_api graph_config_list dataframes with
        | .error e =>
          (.error (.appError 500 ("Failed to create graph data: " ++ e.pyStr)), st2)
        | .ok graph_api =>
          let graph_api_to_process :=
            match limit with
            | none => graph_api
            | some n => if n = 0 then graph_api else graph_api.take n
          let out := neo4j_create_graph_data 1000 graph_api_to_process
            (some 1000) store_ok
          match out.result with
          | .error e =>
            (.error (.appError 500 ("Failed to create graph data: " ++ e.pyStr)), st2)
          | .ok stats => (.ok stats, st2)

/-! Concrete tables and rules used by the concrete theorems below. -/

/-- A table holding only column `a`. -/
def tblA : DataFrame := ⟨["a"], [[.int 1]]⟩

/-- A table holding both columns `a` and `b`. -/
def tblAB : DataFrame := ⟨["a", "b"], [[.int 1, .int 2]]⟩

/-- C1: the claim says the resolver returns the first table whose column set
is a SUPERSET of the required columns and otherwise fails naming the missing
columns, never returning a strict-subset narrowing.  The code disagrees:
`check_cols_exist_in_db` raises only when not one requested column exists,
so with required columns `[a, b]` the scan accepts the first table `t1`
holding only `a` and returns it narrowed to the strict subset `[a]` — a
partial projection — even though the later table `t2` holds both columns. -/
theorem C1_resolver_subset_narrowing :
    find_data_frame [("t1", tblA), ("t2", tblAB)] ["a", "b"] =
      .ok ("t1", ⟨["a"], [[.int 1]]⟩) := by
  decide

/-- The one-table-of-four-columns fixture of the claimed single-table
projection example. -/
def peopleTable : DataFrame :=
  ⟨["id", "name", "age", "city"],
   [[.int 1, .str "John", .int 30, .str "NYC"],
    [.int 2, .str "Jane", .int 25, .str "LA"]]⟩

/-- The claimed rule: `source=(Person,[id,name,age])`, `target=(City,[city])`,
`rels=(LIVES_IN,[])`. -/
def personCityRule : GraphConfig :=
  ⟨⟨"Person", ["id", "name", "age"]⟩, ⟨"City", ["city"]⟩, ⟨"LIVES_IN", []⟩⟩

/-- The same rule with the relationship spec given a non-empty column list. -/
def personCityRuleNonEmptyRels : GraphConfig :=
  ⟨⟨"Person", ["id", "name", "age"]⟩, ⟨"City", ["city"]⟩, ⟨"LIVES_IN", ["city"]⟩⟩

set_option maxRecDepth 100000 in
/-- C2 counterexample: at the claim's exact input the projection does not
yield 2 ProjectedEdges — it raises: the relationship spec's empty property
list makes `check_cols_exist_in_db` raise (its `exists` list is vacuously
empty), which `graph_element_props` re-raises as `ValueError`. -/
theorem C2_counterexample :
    create_graph_api [personCityRule] [("people", peopleTable)] =
      .error (.valueError "Your columns does not exist in the data columns") := by
  decide

set_option maxRecDepth 100000 in
set_option maxHeartbeats 2000000 in
/-- C2 as amended: projecting the rule exactly as claimed raises a
`ValueError` (no edges); with the relationship spec instead given the
non-empty column list `[city]`, projection yields exactly 2 ProjectedEdges
whose records are as claimed EXCEPT that the synthetic id is stored under
the properties key `id` — overwriting the column value `id=1` in the source
record, since Python dict assignment replaces in place — and the target and
relationship records also carry their synthetic id under `id`.  Each id is
the SHA-1 hex digest of the label joined with the sorted key-value pairs of
the record's original properties. -/
theorem C2_amended :
    create_graph_api [personCityRule] [("people", peopleTable)] =
      .error (.valueError "Your columns does not exist in the data columns") ∧
    create_graph_api [personCityRuleNonEmptyRels] [("people", peopleTable)] =
      .ok
        [⟨⟨"Person",
            [("id", .str (sha1_hex (strBytes
               "Person:[('age', 30), ('id', 1), ('name', 'John')]"))),
             ("name", .str "John"), ("age", .int 30)]⟩,
          ⟨"City",
            [("city", .str "NYC"),
             ("id", .str (sha1_hex (strBytes "City:[('city', 'NYC')]")))]⟩,
          ⟨"LIVES_IN",
            [("city", .str "NYC"),
             ("id", .str (sha1_hex (strBytes "LIVES_IN:[('city', 'NYC')]")))]⟩⟩,
         ⟨⟨"Person",
            [("id", .str (sha1_hex (strBytes
               "Person:[('age', 25), ('id', 2), ('name', 'Jane')]"))),
             ("name", .str "Jane"), ("age", .int 25)]⟩,
          ⟨"City",
            [("city", .str "LA"),
             ("id", .str (sha1_hex (strBytes "City:[('city', 'LA')]")))]⟩,
          ⟨"LIVES_IN",
            [("city", .str "LA"),
             ("id", .str (sha1_hex (strBytes "LIVES_IN:[('city', 'LA')]")))]⟩⟩] :=
  ⟨rfl, rfl⟩

/-- Table A of the claimed two-table join scenario: source columns plus the
shared column `id`. -/
def joinTableA : DataFrame := ⟨["id", "name"], [[.int 1, .str "John"]]⟩

/-- Table B of the claimed two-table join scenario: target columns plus the
shared column `id`. -/
def joinTableB : DataFrame := ⟨["id", "city"], [[.int 1, .str "NYC"]]⟩

/-- A rule whose source spec needs `[id, name]` (satisfied by table A) and
whose target spec needs `[id, city]` (only satisfiable in full by table B). -/
def joinRule : GraphConfig :=
  ⟨⟨"Person", ["id", "name"]⟩, ⟨"City", ["id", "city"]⟩, ⟨"KNOWS", ["id"]⟩⟩

/-- C3: the claim (with the spec) says the multi-table engine joins the
source- and target-projection frames on their shared columns and produces
one edge per matching row pair.  The code cannot do this: the resolver hands
the target spec table A narrowed to `[id]` (A is scanned first and holds at
least one of the requested columns), and `source_df.join(target_df,
on=['id'], how="right")` then raises pandas' `ValueError` because the
frames' columns overlap and `DataFrame.join` passes empty suffixes — and
even a successful join would die at `str_df_lazy.collect()`, which pandas
frames do not have.  Every multi-table projection therefore raises instead
of joining. -/
theorem C3_join_path_always_raises :
    create_data_frame_from_props_block [("a", joinTableA), ("b", joinTableB)]
        joinRule =
      .error (.valueError "columns overlap but no suffix specified: ['id']") ∧
    create_graph_api [joinRule] [("a", joinTableA), ("b", joinTableB)] =
      .error (.valueError "columns overlap but no suffix specified: ['id']") := by
  constructor
  · decide
  · decide

/-- Whether an `Except` result is a success. -/
def exceptIsOk : Except ε α → Bool
  | .ok _ => true
  | .error _ => false

theorem mem_setIntersection {c : String} {xs ys : List String} :
    c ∈ setIntersection xs ys ↔ c ∈ xs ∧ c ∈ ys := by
  simp [setIntersection, List.mem_dedup, List.mem_filter]

/-- `DataFrame.join(other, on=shared, how="right")` with the shared-column
key the repository always passes can never succeed: an empty or plural key
list fails merge's key validation, and a singleton key is itself a shared
column, so the empty-suffix overlap check fails. -/
theorem pandas_join_right_on_shared_isError (l r : DataFrame) :
    ∃ m, pandas_join_right l r (setIntersection l.cols r.cols) =
      .error (.valueError m) := by
  unfold pandas_join_right
  by_cases h : (setIntersection l.cols r.cols).length = 1
  · obtain ⟨c, hc⟩ := List.length_eq_one.mp h
    have hcm : c ∈ l.cols ∧ c ∈ r.cols := by
      have : c ∈ setIntersection l.cols r.cols := by
        rw [hc]; exact List.mem_singleton_self c
      exact mem_setIntersection.mp this
    have hov : ¬ (l.cols.filter (fun c => decide (c ∈ r.cols))).isEmpty = true := by
      have hmem : c ∈ l.cols.filter (fun c => decide (c ∈ r.cols)) :=
        List.mem_filter.mpr ⟨hcm.1, by simp [hcm.2]⟩
      intro hemp
      rw [List.isEmpty_iff] at hemp
      rw [hemp] at hmem
      exact (List.not_mem_nil c) hmem
    refine ⟨"columns overlap but no suffix specified: " ++
      pyReprStrList (l.cols.filter (fun c => decide (c ∈ r.cols))), ?_⟩
    simp [h, hov]
  · exact ⟨"len(left_on) must equal the number of levels in the index of right",
      by simp [h]⟩

/-- `create_data_frame_from_props_block` can never return a frame: when all
three resolutions succeed, the first shared-column join already raises. -/
theorem create_block_isError (dico : List (String × DataFrame)) (pb : GraphConfig) :
    ∃ e, create_data_frame_from_props_block dico pb = .error e := by
  unfold create_data_frame_from_props_block
  cases h1 : find_data_frame dico pb.source.properties with
  | error e => exact ⟨e, by simp⟩
  | ok sp =>
    cases h2 : find_data_frame dico pb.target.properties with
    | error e => exact ⟨e, by simp⟩
    | ok tp =>
      cases h3 : find_data_frame dico pb.rels.properties with
      | error e => exact ⟨e, by simp⟩
      | ok rp =>
        obtain ⟨m, hm⟩ := pandas_join_right_on_shared_isError sp.2 tp.2
        exact ⟨.valueError m, by simp [hm]⟩

/-- With at least one rule, the multi-table branch always raises. -/
theorem run_configs_multi_isError (dico : List (String × DataFrame))
    (cfg : GraphConfig) (rest : List GraphConfig) :
    ∃ e, run_configs_multi dico (cfg :: rest) = .error e := by
  obtain ⟨e, he⟩ := create_block_isError dico cfg
  exact ⟨e, by simp [run_configs_multi, he]⟩

/-- The spec's single-table behaviour, stated from its words ("skip
joining: iterate that table's rows directly"): project every rule over the
one cached table and concatenate the per-rule edge lists in rule order. -/
def directSingleTableProjection (cfgs : List GraphConfig) (df : DataFrame) :
    Except PyErr (List ProjectedEdge) :=
  cfgs.foldr
    (fun cfg acc =>
      match source_to_target_rels df cfg, acc with
      | .ok es, .ok more => .ok (es ++ more)
      | .error e, _ => .error e
      | .ok _, .error e => .error e)
    (.ok [])

theorem run_configs_single_eq_direct (df : DataFrame) (cfgs : List GraphConfig) :
    run_configs_single df cfgs = directSingleTableProjection cfgs df := by
  induction cfgs with
  | nil => rfl
  | cons cfg rest ih =>
    unfold run_configs_single directSingleTableProjection
    unfold directSingleTableProjection at ih
    rw [List.foldr_cons, ← ih]
    cases h : source_to_target_rels df cfg with
    | error e => simp
    | ok es =>
      cases h2 : run_configs_single df rest with
      | error e => simp
      | ok more => simp

/-- C4 as amended: the engine skips the join exactly when the session holds
a single table — resolution identity is never consulted.  With one table
every rule list is projected by direct row iteration (equal to the spec's
direct-iteration semantics); with more than one table the engine always
takes the join path, which always raises — even when all three specs of a
rule resolve to the same underlying table. -/
theorem C4_amended :
    (∀ (name : String) (df : DataFrame) (cfgs : List GraphConfig),
      create_graph_api cfgs [(name, df)] = directSingleTableProjection cfgs df) ∧
    (∀ (dico : List (String × DataFrame)) (cfg : GraphConfig)
      (rest : List GraphConfig), 1 < dico.length →
      ∃ e, create_graph_api (cfg :: rest) dico = .error e) := by
  constructor
  · intro name df cfgs
    have : create_graph_api cfgs [(name, df)] = run_configs_single df cfgs := by
      simp [create_graph_api]
    rw [this, run_configs_single_eq_direct]
  · intro dico cfg rest hlen
    obtain ⟨e, he⟩ := run_configs_multi_isError dico cfg rest
    refine ⟨e, ?_⟩
    simp [create_graph_api, hlen, he]

/-- Instantiates the multi-table half of the C4 theorem at a concrete
two-table session, discharging its hypothesis. -/
theorem C4_witness :
    (1 < ([("a", joinTableA), ("b", joinTableB)] : List (String × DataFrame)).length) ∧
    (∃ e, create_graph_api [joinRule] [("a", joinTableA), ("b", joinTableB)] =
      .error e) :=
  ⟨by decide, C4_amended.2 [("a", joinTableA), ("b", joinTableB)] joinRule [] (by decide)⟩

/-- A table holding columns `x` and `y`, satisfying all three specs of
`sameTableRule`. -/
def tableXY : DataFrame := ⟨["x", "y"], [[.int 1, .int 2]]⟩

/-- A second, unrelated table. -/
def tableZ : DataFrame := ⟨["z"], [[.int 3]]⟩

/-- A rule whose source, target and relationship specs all resolve to
`tableXY` (the first table). -/
def sameTableRule : GraphConfig :=
  ⟨⟨"S", ["x"]⟩, ⟨"T", ["y"]⟩, ⟨"R", ["x"]⟩⟩

/-- C4 counterexample: a rule whose three specs all resolve to the first
table projects fine when that table is alone in the session, but adding an
unrelated second table makes the engine take the join path — which raises —
instead of iterating the resolved table's rows directly as the claim
states. -/
theorem C4_counterexample :
    create_graph_api [sameTableRule] [("a", tableXY), ("b", tableZ)] =
      .error (.valueError
        "len(left_on) must equal the number of levels in the index of right") ∧
    exceptIsOk (create_graph_api [sameTableRule] [("a", tableXY)]) = true :=
  ⟨rfl, rfl⟩

theorem charEqOfToNatEq {a b : Char} (h : a.toNat = b.toNat) : a = b := by
  cases a with
  | mk v1 h1 =>
    cases b with
    | mk v2 h2 =>
      simp only [Char.toNat] at h
      congr 1
      exact UInt32.ext h

theorem strLtb_irrefl (l : List Char) : strLtb l l = false := by
  induction l with
  | nil => rfl
  | cons a as ih => simp [strLtb, ih]

theorem strLtb_trans : ∀ {l m n : List Char},
    strLtb l m = true → strLtb m n = true → strLtb l n = true
  | [], _ :: _, _ :: _, _, _ => by simp [strLtb]
  | [], [], _, h1, _ => by simp [strLtb] at h1
  | [], _ :: _, [], _, h2 => by simp [strLtb] at h2
  | _ :: _, [], _, h1, _ => by simp [strLtb] at h1
  | _ :: _, _ :: _, [], _, h2 => by simp [strLtb] at h2
  | a :: as, b :: bs, c :: cs, h1, h2 => by
    simp only [strLtb] at h1 h2 ⊢
    by_cases hab : a.toNat < b.toNat
    · by_cases hbc : b.toNat < c.toNat
      · rw [if_pos (show a.toNat < c.toNat by omega)]
      · rw [if_neg hbc] at h2
        by_cases hcb : c.toNat < b.toNat
        · rw [if_pos hcb] at h2; exact absurd h2 (by simp)
        · rw [if_pos (show a.toNat < c.toNat by omega)]
    · rw [if_neg hab] at h1
      by_cases hba : b.toNat < a.toNat
      · rw [if_pos hba] at h1; exact absurd h1 (by simp)
      · rw [if_neg hba] at h1
        by_cases hbc : b.toNat < c.toNat
        · rw [if_pos (show a.toNat < c.toNat by omega)]
        · rw [if_neg hbc] at h2
          by_cases hcb : c.toNat < b.toNat
          · rw [if_pos hcb] at h2; exact absurd h2 (by simp)
          · rw [if_neg hcb] at h2
            rw [if_neg (show ¬ a.toNat < c.toNat by omega),
              if_neg (show ¬ c.toNat < a.toNat by omega)]
            exact strLtb_trans h1 h2

theorem strLtb_conn : ∀ {l m : List Char},
    strLtb l m = false → strLtb m l = false → l = m
  | [], [], _, _ => rfl
  | [], _ :: _, h1, _ => by simp [strLtb] at h1
  | _ :: _, [], _, h2 => by simp [strLtb] at h2
  | a :: as, b :: bs, h1, h2 => by
    simp only [strLtb] at h1 h2
    by_cases hab : a.toNat < b.toNat
    · rw [if_pos hab] at h1; exact absurd h1 (by simp)
    · rw [if_neg hab] at h1
      by_cases hba : b.toNat < a.toNat
      · rw [if_pos hba] at h2; exact absurd h2 (by simp)
      · rw [if_neg hba] at h1
        rw [if_neg hba, if_neg hab] at h2
        have htl : as = bs := strLtb_conn h1 h2
        have hhd : a = b := charEqOfToNatEq (by omega)
        rw [hhd, htl]

theorem pyStrLe_total (s t : String) : pyStrLe s t = true ∨ pyStrLe t s = true := by
  unfold pyStrLe pyStrLt
  cases h : strLtb t.data s.data with
  | true =>
    right
    cases h2 : strLtb s.data t.data with
    | true =>
      have := strLtb_trans h h2
      rw [strLtb_irrefl] at this
      exact absurd this (by simp)
    | false => rfl
  | false => left; rfl

theorem pyStrLe_antisymm {s t : String} (h1 : pyStrLe s t = true)
    (h2 : pyStrLe t s = true) : s = t := by
  unfold pyStrLe pyStrLt at h1 h2
  simp only [Bool.not_eq_true'] at h1 h2
  exact congrArg String.mk (strLtb_conn h2 h1)

theorem pyStrLe_trans {s t u : String} (h1 : pyStrLe s t = true)
    (h2 : pyStrLe t u = true) : pyStrLe s u = true := by
  unfold pyStrLe pyStrLt at h1 h2 ⊢
  simp only [Bool.not_eq_true'] at h1 h2 ⊢
  cases h3 : strLtb u.data s.data with
  | false => rfl
  | true =>
    exfalso
    by_cases h4 : strLtb t.data u.data = true
    · have h5 := strLtb_trans h4 h3
      rw [h5] at h1
      exact Bool.noConfusion h1
    · have h4f : strLtb t.data u.data = false := by simpa using h4
      have h6 := strLtb_conn h4f h2
      rw [← h6] at h3
      rw [h3] at h1
      exact Bool.noConfusion h1

theorem pyValueLe_total (x y : PyValue) :
    pyValueLe x y = true ∨ pyValueLe y x = true := by
  cases x <;> cases y <;> simp [pyValueLe] <;> try omega
  exact pyStrLe_total _ _

theorem pyValueLe_antisymm : ∀ {x y : PyValue},
    pyValueLe x y = true → pyValueLe y x = true → x = y
  | .nan, .nan, _, _ => rfl
  | .nan, .int _, _, h2 => by simp [pyValueLe] at h2
  | .nan, .str _, _, h2 => by simp [pyValueLe] at h2
  | .int _, .nan, h1, _ => by simp [pyValueLe] at h1
  | .str _, .nan, h1, _ => by simp [pyValueLe] at h1
  | .int _, .str _, _, h2 => by simp [pyValueLe] at h2
  | .str _, .int _, h1, _ => by simp [pyValueLe] at h1
  | .int m, .int n, h1, h2 => by
    simp [pyValueLe] at h1 h2
    have : m = n := by omega
    rw [this]
  | .str s, .str t, h1, h2 => by
    simp only [pyValueLe] at h1 h2
    rw [pyStrLe_antisymm h1 h2]

theorem pyValueLe_trans : ∀ {x y z : PyValue},
    pyValueLe x y = true → pyValueLe y z = true → pyValueLe x z = true
  | .nan, _, _, _, _ => by simp [pyValueLe]
  | .int _, .nan, _, h1, _ => by simp [pyValueLe] at h1
  | .str _, .nan, _, h1, _ => by simp [pyValueLe] at h1
  | .str _, .int _, _, h1, _ => by simp [pyValueLe] at h1
  | .int _, .int _, .nan, _, h2 => by simp [pyValueLe] at h2
  | .int _, .str _, .nan, _, h2 => by simp [pyValueLe] at h2
  | .int _, .str _, .int _, _, h2 => by simp [pyValueLe] at h2
  | .int _, .int _, .str _, _, _ => by simp [pyValueLe]
  | .int _, .str _, .str _, _, _ => by simp [pyValueLe]
  | .int m, .int n, .int p, h1, h2 => by
    simp [pyValueLe] at h1 h2 ⊢
    omega
  | .str _, .str _, .nan, _, h2 => by simp [pyValueLe] at h2
  | .str _, .str _, .int _, _, h2 => by simp [pyValueLe] at h2
  | .str s, .str t, .str u, h1, h2 => by
    simp only [pyValueLe] at h1 h2 ⊢
    exact pyStrLe_trans h1 h2

/-- The relation `sortPairs` sorts by, as a `Prop`. -/
def pairLeP (a b : String × PyValue) : Prop :=
  pairLe a b = true

instance : DecidableRel pairLeP := fun a b => by
  unfold pairLeP
  infer_instance

instance : IsTotal (String × PyValue) pairLeP := by
  constructor
  intro a b
  unfold pairLeP pairLe
  by_cases hab : pyStrLt a.1 b.1 = true
  · left; simp [hab]
  · by_cases hba : pyStrLt b.1 a.1 = true
    · right; simp [hba]
    · have heq : a.1 = b.1 := by
        unfold pyStrLt at hab hba
        exact congrArg String.mk
          (strLtb_conn (by simpa using hab) (by simpa using hba))
      rcases pyValueLe_total a.2 b.2 with h | h
      · left; simp [heq, h]
      · right; simp [heq.symm, h]

instance : IsTrans (String × PyValue) pairLeP := by
  constructor
  intro a b c h1 h2
  unfold pairLeP pairLe at h1 h2 ⊢
  simp only [Bool.or_eq_true, Bool.and_eq_true, decide_eq_true_eq] at h1 h2 ⊢
  rcases h1 with h1 | ⟨h1e, h1v⟩
  · rcases h2 with h2 | ⟨h2e, h2v⟩
    · exact Or.inl (strLtb_trans h1 h2)
    · rw [h2e] at h1
      exact Or.inl h1
  · rcases h2 with h2 | ⟨h2e, h2v⟩
    · rw [h1e]
      exact Or.inl h2
    · exact Or.inr ⟨h1e.trans h2e, pyValueLe_trans h1v h2v⟩

instance : IsAntisymm (String × PyValue) pairLeP := by
  constructor
  intro a b h1 h2
  unfold pairLeP pairLe at h1 h2
  simp only [Bool.or_eq_true, Bool.and_eq_true, decide_eq_true_eq] at h1 h2
  rcases h1 with h1 | ⟨h1e, h1v⟩
  · rcases h2 with h2 | ⟨h2e, h2v⟩
    · have := strLtb_trans h1 h2
      rw [strLtb_irrefl] at this
      exact absurd this (by simp)
    · rw [h2e] at h1
      unfold pyStrLt at h1
      rw [strLtb_irrefl] at h1
      exact absurd h1 (by simp)
  · rcases h2 with h2 | ⟨h2e, h2v⟩
    · rw [h1e] at h2
      unfold pyStrLt at h2
      rw [strLtb_irrefl] at h2
      exact absurd h2 (by simp)
    · have hv := pyValueLe_antisymm h1v h2v
      cases a; cases b
      simp only at h1e hv
      rw [h1e, hv]

theorem sortPairs_eq_of_perm {p q : List (String × PyValue)} (h : p.Perm q) :
    sortPairs p = sortPairs q := by
  have hs : sortPairs p = p.insertionSort pairLeP := rfl
  have hs2 : sortPairs q = q.insertionSort pairLeP := rfl
  rw [hs, hs2]
  exact List.eq_of_perm_of_sorted
    ((List.perm_insertionSort pairLeP p).trans
      (h.trans (List.perm_insertionSort pairLeP q).symm))
    (List.sorted_insertionSort pairLeP p)
    (List.sorted_insertionSort pairLeP q)

/-- C5: the synthetic id `graph_element_props` computes is a deterministic
function of the label and the SORTED key-value pairs of the properties
(`sha1(f"{label}:{sorted(props.items())}")`), so it is identical on every
computation and invariant under any permutation of the properties mapping's
insertion order: two rows yielding identical label+properties yield the
identical id. -/
theorem C5_node_id_order_independent (label : String)
    (p q : List (String × PyValue)) (h : p.Perm q) :
    node_id label p = node_id label q ∧
    node_id label p = sha1_hex (strBytes (label ++ ":" ++ pyReprPairs (sortPairs p))) := by
  constructor
  · unfold node_id
    rw [sortPairs_eq_of_perm h]
  · rfl

/-- Instantiates the C5 theorem at two insertion orders of the same
two-property mapping, discharging the permutation hypothesis. -/
theorem C5_witness :
    (([("name", PyValue.str "John"), ("id", PyValue.int 1)] :
        List (String × PyValue)).Perm
      [("id", PyValue.int 1), ("name", PyValue.str "John")]) ∧
    (node_id "Person" [("name", PyValue.str "John"), ("id", PyValue.int 1)] =
        node_id "Person" [("id", PyValue.int 1), ("name", PyValue.str "John")] ∧
      node_id "Person" [("name", PyValue.str "John"), ("id", PyValue.int 1)] =
        sha1_hex (strBytes ("Person" ++ ":" ++ pyReprPairs (sortPairs
          [("name", PyValue.str "John"), ("id", PyValue.int 1)])))) :=
  ⟨by decide,
    C5_node_id_order_independent "Person"
      [("name", PyValue.str "John"), ("id", PyValue.int 1)]
      [("id", PyValue.int 1), ("name", PyValue.str "John")] (by decide)⟩

theorem flatten_range_chunks (bs : Nat) (l : List α) (m : Nat) :
    ((List.range m).map (fun i => (l.drop (i * bs)).take bs)).flatten =
      l.take (m * bs) := by
  induction m with
  | zero => simp
  | succ m ih =>
    have hm : (m + 1) * bs = m * bs + bs := by ring
    rw [hm, List.take_add, List.range_succ]
    simp only [List.map_append, List.flatten_append, List.map_cons, List.map_nil,
      List.flatten_cons, List.flatten_nil, List.append_nil]
    rw [ih]

theorem chunksOf_take_flatten (bs : Nat) (l : List α) (k : Nat)
    (hk : k ≤ (chunksOf bs l).length) :
    ((chunksOf bs l).take k).flatten = l.take (k * bs) := by
  unfold chunksOf at hk ⊢
  rw [← List.map_take, List.take_range]
  have hmin : min k ((l.length + bs - 1) / bs) = k := by
    simp at hk
    omega
  rw [hmin]
  exact flatten_range_chunks bs l k

theorem chunksOf_mem_ne_nil {bs : Nat} (hbs : bs ≠ 0) {l : List α}
    {b : List α} (hb : b ∈ chunksOf bs l) : b ≠ [] := by
  unfold chunksOf at hb
  obtain ⟨i, hi, rfl⟩ := List.mem_map.mp hb
  rw [List.mem_range] at hi
  have h1 : i + 1 ≤ (l.length + bs - 1) / bs := hi
  have h2 : (i + 1) * bs ≤ l.length + bs - 1 :=
    (Nat.le_div_iff_mul_le (by omega)).mp h1
  rw [Nat.succ_mul] at h2
  have hlt : i * bs < l.length := by omega
  intro hnil
  rw [List.take_eq_nil_iff] at hnil
  rcases hnil with hnil | hnil
  · exact hbs hnil
  · rw [List.drop_eq_nil_iff] at hnil
    omega

theorem run_batches_fail_spec (store_ok : Nat → Bool) :
    ∀ (batches : List (List ProjectedEdge)) (start k : Nat),
    (∀ b ∈ batches, b ≠ []) →
    start ≤ k → k < start + batches.length →
    (∀ i, start ≤ i → i < k → store_ok i = true) →
    store_ok k = false →
    run_batches store_ok start batches =
      ((batches.take (k - start)).flatten, k - start + 1, some k)
  | [], start, k, _, h1, h2, _, _ => by
    exfalso
    simp at h2
    omega
  | b :: rest, start, k, hne, h1, h2, hok, hfail => by
    have hbne : b ≠ [] := hne b (List.mem_cons_self b rest)
    have hbempty : ¬ (b.isEmpty = true) := by
      simpa [List.isEmpty_iff] using hbne
    unfold run_batches
    rw [if_neg hbempty]
    by_cases hsk : start = k
    · subst hsk
      rw [if_neg (by simp [hfail])]
      simp [Nat.sub_self]
    · have hlt : start < k := by omega
      rw [if_pos (hok start (Nat.le_refl start) hlt)]
      have IH := run_batches_fail_spec store_ok rest (start + 1) k
        (fun b hb => hne b (List.mem_cons_of_mem _ hb))
        (by omega)
        (by simp at h2 ⊢; omega)
        (fun i hi1 hi2 => hok i (by omega) hi2)
        hfail
      rw [IH]
      have hks : k - start = (k - (start + 1)) + 1 := by omega
      rw [hks]
      simp [List.take_succ_cons]

/-- The writer's behaviour when the store rejects batch `k` (1-based) after
accepting every earlier batch: the committed prefix, the attempted count and
the surfaced wrapped error. -/
theorem neo4j_write_fail_spec (edges : List ProjectedEdge) (bs : Nat)
    (store_ok : Nat → Bool) (k : Nat) (hbs : bs ≠ 0) (hk1 : 1 ≤ k)
    (hk2 : k ≤ (chunksOf bs edges).length)
    (hok : ∀ i, 1 ≤ i → i < k → store_ok i = true)
    (hfail : store_ok k = false) :
    neo4j_create_graph_data 1000 edges (some bs) store_ok =
      ⟨edges.take ((k - 1) * bs), k,
        .error (.graphCreationError "Failed to create graph"
          [("error", "Failed to process batch " ++ toString k),
           ("configs", toString edges.length)])⟩ := by
  have hlen0 : ¬ (edges.length = 0) := by
    intro h0
    have hz : (chunksOf bs edges).length = 0 := by
      unfold chunksOf
      simp [h0, Nat.div_eq_of_lt (by omega : bs - 1 < bs)]
    omega
  have hebs : effectiveBatchSize 1000 (some bs) = bs := by
    simp [effectiveBatchSize, hbs]
  have hrun := run_batches_fail_spec store_ok (chunksOf bs edges) 1 k
    (fun b hb => chunksOf_mem_ne_nil hbs hb) hk1 (by omega) hok hfail
  unfold neo4j_create_graph_data
  simp only [hebs]
  rw [if_neg hlen0]
  simp only [hrun]
  rw [chunksOf_take_flatten bs edges (k - 1) (by omega)]
  have hka : k - 1 + 1 = k := by omega
  rw [hka]

/-- C6 as amended: `create_graph_data` partitions the edge list into
consecutive `batch_size` slices (the last possibly smaller) and processes
them strictly sequentially; when the store rejects batch `k` after
accepting every earlier batch, exactly the first `k - 1` batches' edges are
committed and stay committed, exactly `k` batches were attempted (later
ones never start), and the surfaced error is a `GraphCreationError` whose
own handler has wrapped the inner per-batch error: its message is "Failed
to create graph" and its details hold only the wrapped message naming the
batch index and the total config count — neither the failed batch's size
(the inner error's `batch_size` detail is lost in the wrapping) nor the
count of edges committed before the failure. -/
theorem C6_amended (edges : List ProjectedEdge) (bs : Nat)
    (store_ok : Nat → Bool) (k : Nat) (hbs : bs ≠ 0) (hk1 : 1 ≤ k)
    (hk2 : k ≤ (chunksOf bs edges).length)
    (hok : ∀ i, 1 ≤ i → i < k → store_ok i = true)
    (hfail : store_ok k = false) :
    neo4j_create_graph_data 1000 edges (some bs) store_ok =
      ⟨edges.take ((k - 1) * bs), k,
        .error (.graphCreationError "Failed to create graph"
          [("error", "Failed to process batch " ++ toString k),
           ("configs", toString edges.length)])⟩ :=
  neo4j_write_fail_spec edges bs store_ok k hbs hk1 hk2 hok hfail

/-- A placeholder edge for the concrete batching scenarios. -/
def dummyEdge : ProjectedEdge := ⟨⟨"", []⟩, ⟨"", []⟩, ⟨"", []⟩⟩

/-- Instantiates the C6 theorem at 5 edges with batch size 2 and the store
rejecting batch 2, discharging every hypothesis. -/
theorem C6_witness :
    ((2 : Nat) ≠ 0 ∧ 1 ≤ 2 ∧
      2 ≤ (chunksOf 2 (List.replicate 5 dummyEdge)).length ∧
      (fun i => decide (i ≠ 2)) 2 = false) ∧
    neo4j_create_graph_data 1000 (List.replicate 5 dummyEdge) (some 2)
        (fun i => decide (i ≠ 2)) =
      ⟨(List.replicate 5 dummyEdge).take ((2 - 1) * 2), 2,
        .error (.graphCreationError "Failed to create graph"
          [("error", "Failed to process batch " ++ toString 2),
           ("configs", toString (List.replicate 5 dummyEdge).length)])⟩ :=
  ⟨⟨by decide, by decide, by decide, by decide⟩,
    C6_amended (List.replicate 5 dummyEdge) 2 (fun i => decide (i ≠ 2)) 2
      (by decide) (by decide) (by decide)
      (fun i h1 h2 => by
        have hi : i = 1 := by omega
        subst hi
        decide)
      (by decide)⟩

/-- C6 counterexample at the claim's own scale: for 2500 edges, batch size
1000 and the 2nd batch failing, exactly 1000 edges are committed and batch
3 is never attempted (attempted = 2) — but the surfaced error, pinned here
in full, reports neither the failed batch's size nor the committed count:
its details dict holds only the wrapped inner message and the total config
count, and has no `batch_size` entry, contradicting the claim's description
of the surfaced error. -/
theorem C6_counterexample :
    neo4j_create_graph_data 1000 (List.replicate 2500 dummyEdge) (some 1000)
        (fun i => decide (i ≠ 2)) =
      ⟨(List.replicate 2500 dummyEdge).take 1000, 2,
        .error (.graphCreationError "Failed to create graph"
          [("error", "Failed to process batch 2"), ("configs", "2500")])⟩ ∧
    alistLookup [("error", "Failed to process batch 2"), ("configs", "2500")]
      "batch_size" = none ∧
    ((List.replicate 2500 dummyEdge).take 1000).length = 1000 := by
  refine ⟨?_, by decide,
    by simp only [List.take_replicate, List.length_replicate]; norm_num⟩
  have h := neo4j_write_fail_spec (List.replicate 2500 dummyEdge) 1000
    (fun i => decide (i ≠ 2)) 2
    (by decide) (by decide)
    (by
      simp only [chunksOf, List.length_map, List.length_range,
        List.length_replicate]
      norm_num)
    (fun i h1 h2 => by
      have hi : i = 1 := by omega
      subst hi
      decide)
    (by decide)
  have e1 : (2 - 1) * 1000 = 1000 := by norm_num
  have e2 : "Failed to process batch " ++ toString 2 = "Failed to process batch 2" := by
    rfl
  have e3 : toString (List.replicate 2500 dummyEdge).length = "2500" := by
    rw [List.length_replicate]
    rfl
  rw [e1, e2, e3] at h
  exact h

theorem alistLookup_set_self (d : List (String × α)) (k : String) (v : α) :
    alistLookup (alistSet d k v) k = some v := by
  induction d with
  | nil => simp [alistSet, alistLookup]
  | cons p rest ih =>
    obtain ⟨k0, v0⟩ := p
    by_cases h : k0 = k
    · simp [alistSet, alistLookup, h]
    · simp [alistSet, alistLookup, h, ih]

/-- Whatever `_create_data_frame_from_files` returns, the first file comes
back with its stream position at the end: the loop's first step reads the
file to its end and never seeks back. -/
theorem cdf_files_head (load_file : FileLoader) (f : UploadFile)
    (rest : List UploadFile) (td : List (String × TableData))
    (dfs : List (String × DataFrame)) :
    ∃ tl, (create_data_frame_from_files load_file (f :: rest) td dfs).2 =
      { f with pos := f.content.length } :: tl := by
  unfold create_data_frame_from_files
  simp only [fileRead]
  repeat' split
  all_goals exact ⟨_, rfl⟩

/-- C7: every successful run of the upload endpoint stores its session under
the MD5 hex digest of the EMPTY byte string — `create_data_frame` has
already read the first file's stream to its end without seeking back when
`upload_files` reads it again to derive the session id — so the session id
is a constant independent of the uploaded contents: any two uploads collide
on it, and the stored session at that id (in memory and on disk) is always
the latest upload's, created at the current call's time `now`. -/
theorem C7_session_id_of_empty_stream (load_file : FileLoader)
    (settings : Settings) (sm : SMState) (now : Int) (files : List UploadFile)
    (sid : String) (sm1 : SMState)
    (h : upload_files load_file settings sm now files = .ok (sid, sm1)) :
    sid = md5_hex [] ∧
    (alistLookup sm1.memory (md5_hex [])).map SessionData.created_at = some now ∧
    (alistLookup sm1.disk (md5_hex [])).map SessionData.created_at = some now := by
  unfold upload_files at h
  by_cases hemp : files.isEmpty = true
  · rw [if_pos hemp] at h
    exact absurd h (by simp)
  · rw [if_neg hemp] at h
    cases hval : validate_files settings files with
    | error e => simp [hval] at h
    | ok files1 =>
      simp only [hval] at h
      rcases hcdf : create_data_frame_from_files load_file files1 [] []
        with ⟨res, files2⟩
      simp only [hcdf] at h
      cases res with
      | error e => simp at h
      | ok tddfs =>
        obtain ⟨td, dfs⟩ := tddfs
        cases files2 with
        | nil => simp at h
        | cons f0 tl =>
          simp only [fileRead, create_session, Except.ok.injEq, Prod.mk.injEq] at h
          obtain ⟨hsid, hsm⟩ := h
          have hpos : f0.pos = f0.content.length := by
            cases files1 with
            | nil =>
              rw [show create_data_frame_from_files load_file [] [] [] =
                (.ok ([], []), []) from rfl] at hcdf
              exact absurd (congrArg Prod.snd hcdf) (by simp)
            | cons g grest =>
              obtain ⟨tl2, htl⟩ := cdf_files_head load_file g grest [] []
              rw [hcdf] at htl
              simp only at htl
              rw [List.cons.injEq] at htl
              rw [htl.1]
          have hdrop : f0.content.drop f0.pos = [] := by
            rw [hpos]
            exact List.drop_length f0.content
          rw [hdrop] at hsid hsm
          refine ⟨hsid.symm, ?_, ?_⟩
          · rw [← hsm]
            simp [alistLookup_set_self]
          · rw [← hsm]
            simp [alistLookup_set_self]

/-- A parser standing in for the external file loader. -/
def wLoader : FileLoader := fun _ _ => .ok ⟨["a"], [[.int 1]]⟩

/-- Upload settings allowing `csv` files of up to 1000 bytes. -/
def wSettings : Settings := ⟨["csv"], 1000⟩

/-- One small uploaded csv file. -/
def wFiles : List UploadFile := [⟨"t.csv", [104, 105], 0⟩]

/-- The session-manager state the witness upload produces. -/
def wSessionState : SMState :=
  ⟨3600,
    [(md5_hex [], ⟨5, "file", [("t", ⟨["a"], [[.int 1]]⟩)]⟩)],
    [(md5_hex [], ⟨5, "file", [("t", ⟨["a"], [[.int 1]]⟩)]⟩)],
    []⟩

set_option maxRecDepth 100000 in
/-- Instantiates the C7 theorem at a concrete successful upload, discharging
its success hypothesis by evaluation. -/
theorem C7_witness :
    (upload_files wLoader wSettings (initSM 3600) 5 wFiles =
      .ok (md5_hex [], wSessionState)) ∧
    (md5_hex [] = md5_hex [] ∧
      (alistLookup wSessionState.memory (md5_hex [])).map SessionData.created_at =
        some 5 ∧
      (alistLookup wSessionState.disk (md5_hex [])).map SessionData.created_at =
        some 5) :=
  ⟨by decide,
    C7_session_id_of_empty_stream wLoader wSettings (initSM 3600) 5 wFiles
      (md5_hex []) wSessionState (by decide)⟩

/-- C8 as amended: a freshly created session is retrievable exactly while
`now - created_at <= timeout` — the boundary access at elapsed EXACTLY the
timeout still finds the session — and absent (and evicted) for
`now - created_at > timeout`, consistently across `get_session`,
`get_dataframes`, `get_session_info` and `list_sessions`. -/
theorem C8_amended (tmo : Int) (sid : String) (dfs : List (String × DataFrame))
    (src : String) (c now : Int) :
    ((get_session (create_session (initSM tmo) c sid dfs src).2 now sid).1.isSome
      ↔ now - c ≤ tmo) ∧
    ((get_dataframes (create_session (initSM tmo) c sid dfs src).2 now sid).1.isSome
      ↔ now - c ≤ tmo) ∧
    ((get_session_info (create_session (initSM tmo) c sid dfs src).2 now sid).1.isSome
      ↔ now - c ≤ tmo) ∧
    ((alistLookup (list_sessions (create_session (initSM tmo) c sid dfs src).2 now).1
        sid).isSome
      ↔ now - c ≤ tmo) := by
  have hst : (create_session (initSM tmo) c sid dfs src).2 =
      ⟨tmo, [(sid, ⟨c, src, dfs⟩)], [(sid, ⟨c, src, dfs⟩)], []⟩ := rfl
  rw [hst]
  by_cases h : now - c ≤ tmo
  · have hgs : get_session ⟨tmo, [(sid, ⟨c, src, dfs⟩)], [(sid, ⟨c, src, dfs⟩)], []⟩
        now sid = (some ⟨c, src, dfs⟩,
          ⟨tmo, [(sid, ⟨c, src, dfs⟩)], [(sid, ⟨c, src, dfs⟩)], []⟩) := by
      simp [get_session, alistLookup, h]
    refine ⟨by simp [hgs, h], by simp [get_dataframes, hgs, h], ?_, ?_⟩
    · simp [get_session_info, hgs, h]
    · simp [list_sessions, list_sessions_memory, list_sessions_disk,
        get_session_info, hgs, h, alistSet, alistLookup]
  · have h2 : tmo < now - c := lt_of_not_le h
    have hload : load_session_metadata
        ⟨tmo, [], [(sid, ⟨c, src, dfs⟩)], []⟩ now sid =
        (none, ⟨tmo, [], [], []⟩) := by
      simp [load_session_metadata, alistLookup, delete_session, alistErase, h2]
    have hgs : get_session ⟨tmo, [(sid, ⟨c, src, dfs⟩)], [(sid, ⟨c, src, dfs⟩)], []⟩
        now sid = (none, ⟨tmo, [], [], []⟩) := by
      simp [get_session, alistLookup, alistErase, h, hload]
    have hgs2 : get_session ⟨tmo, [], [(sid, ⟨c, src, dfs⟩)], []⟩
        now sid = (none, ⟨tmo, [], [], []⟩) := by
      simp [get_session, alistLookup, hload]
    refine ⟨by simp [hgs, h], by simp [get_dataframes, hgs, h], ?_, ?_⟩
    · simp [get_session_info, hgs, h]
    · simp [list_sessions, list_sessions_memory, list_sessions_disk,
        get_session_info, hgs2, h, h2, alistErase, alistLookup]

/-- C8 counterexample: with timeout 10, a session created at time 0 and
accessed at time 10 — elapsed EXACTLY the timeout — is still returned,
while the claim says an access at elapsed equal to the timeout finds the
session absent. -/
theorem C8_counterexample :
    (get_session (create_session (initSM 10) 0 "s" [] "file").2 10 "s").1 =
      some ⟨0, "file", []⟩ := by
  decide

/-- Erasing an absent key changes nothing. -/
theorem alistErase_of_lookup_none (d : List (String × α)) (k : String)
    (h : alistLookup d k = none) : alistErase d k = d := by
  induction d with
  | nil => rfl
  | cons p rest ih =>
    obtain ⟨k0, v0⟩ := p
    by_cases hk : k0 = k
    · simp [alistLookup, hk] at h
    · simp only [alistLookup, if_neg hk] at h
      simp [alistErase, hk, ih h]

/-- C9 as amended: `delete_session` always removes the in-memory copy and
returns `True` whenever no exception occurred — including when no copy
existed at all — and returns `False` (without raising) exactly when an I/O
error prevents removing an existing durable copy, in which case the durable
copy stays in place. -/
theorem C9_amended (st : SMState) (sid : String) :
    (delete_session st sid).1 =
      !((alistLookup st.disk sid).isSome && st.unlink_fails.contains sid) ∧
    (delete_session st sid).2.memory = alistErase st.memory sid ∧
    (delete_session st sid).2.disk =
      (if (alistLookup st.disk sid).isSome && st.unlink_fails.contains sid
        then st.disk else alistErase st.disk sid) ∧
    (delete_session st sid).2.session_timeout = st.session_timeout := by
  unfold delete_session
  cases hl : (alistLookup st.disk sid).isSome with
  | false =>
    have hnone : alistLookup st.disk sid = none := by
      cases hx : alistLookup st.disk sid
      · rfl
      · rw [hx] at hl; exact absurd hl (by simp)
    simp [hl, alistErase_of_lookup_none st.disk sid hnone]
  | true =>
    by_cases hf : sid ∈ st.unlink_fails
    · simp [hl, hf]
    · simp [hl, hf]

/-- C9 counterexample: deleting a session id for which no copy exists
returns `True` (nothing was removed, yet nothing raised), while the claim
says it returns `False` in that case. -/
theorem C9_counterexample :
    delete_session (initSM 3600) "missing" = (true, initSM 3600) := by
  decide

/-- C10: the exposed projection operation rejects empty input: with zero
projection rules every run returns an error (400, the rule list is empty —
never a success with an empty edge list), and with zero tables behind the
session (no table mapping, or an empty one) every run returns an error
(404) no matter the rules. -/
theorem C10_empty_input_rejected (st : SMState) (now : Int) (sid : String)
    (cfgs : List GraphConfig) (limit : Option Nat) (store_ok : Nat → Bool) :
    (cfgs = [] →
      exceptIsOk (create_graph_data_endpoint st now sid cfgs limit store_ok).1 =
        false) ∧
    ((get_dataframes (get_session_info st now sid).2 now sid).1.getD [] = [] →
      exceptIsOk (create_graph_data_endpoint st now sid cfgs limit store_ok).1 =
        false) := by
  constructor
  · intro hc
    subst hc
    unfold create_graph_data_endpoint
    rcases hinfo : get_session_info st now sid with ⟨info, st1⟩
    simp only [hinfo]
    cases info with
    | none => simp [exceptIsOk]
    | some i =>
      rcases hdfs : get_dataframes st1 now sid with ⟨odfs, st2⟩
      simp only [hdfs]
      cases odfs with
      | none => simp [exceptIsOk]
      | some dataframes =>
        by_cases hd : dataframes.isEmpty = true
        · simp [hd, exceptIsOk]
        · simp [hd, exceptIsOk]
  · intro hdf
    unfold create_graph_data_endpoint
    rcases hinfo : get_session_info st now sid with ⟨info, st1⟩
    simp only [hinfo] at hdf ⊢
    cases info with
    | none => simp [exceptIsOk]
    | some i =>
      rcases hdfs : get_dataframes st1 now sid with ⟨odfs, st2⟩
      simp only [hdfs] at hdf ⊢
      cases odfs with
      | none => simp [exceptIsOk]
      | some dataframes =>
        simp only [Option.getD_some] at hdf
        subst hdf
        simp [exceptIsOk]

/-- Instantiates both halves of the C10 theorem at a concrete empty state,
discharging each hypothesis. -/
theorem C10_witness :
    (([] : List GraphConfig) = [] ∧
      exceptIsOk (create_graph_data_endpoint (initSM 0) 0 "s" [] none
        (fun _ => true)).1 = false) ∧
    ((get_dataframes (get_session_info (initSM 0) 0 "s").2 0 "s").1.getD [] = [] ∧
      exceptIsOk (create_graph_data_endpoint (initSM 0) 0 "s" [] none
        (fun _ => true)).1 = false) :=
  ⟨⟨rfl, (C10_empty_input_rejected (initSM 0) 0 "s" [] none (fun _ => true)).1 rfl⟩,
   ⟨by decide, (C10_empty_input_rejected (initSM 0) 0 "s" [] none
      (fun _ => true)).2 (by decide)⟩⟩

end GraphBuilder
